import Mathlib

/-!
Verification of the stock-dashboard pipeline in `streamlit_tab.py`.

Python scalar values coming back from the market-data provider are modelled by
the inductive type `Value` (null / integer / string); a provider metadata
mapping (a Python `dict`) is an association list queried first-match, which
agrees with `dict` semantics since `dict` keys are unique.  Fallible Python
operations (`d[k]` indexing, sub-indexing a non-dict) return `Option`;
`dict.get` with a default is total.
-/

/-- A Python scalar value as it appears in the provider metadata mapping. -/
inductive Value where
  | vNull : Value
  | vInt : Int → Value
  | vStr : String → Value
deriving DecidableEq, Repr

/-- `str(v)` as Python's f-string interpolation renders a scalar. -/
def Value.render : Value → String
  | .vNull => "None"
  | .vInt n => toString n
  | .vStr s => s

/-- `repr(v)`: like `str` except strings are quoted (used inside dict reprs). -/
def Value.pyRepr : Value → String
  | .vNull => "None"
  | .vInt n => toString n
  | .vStr s => "\x27" ++ s ++ "\x27"

/-- The provider metadata mapping `details` (`ticker.info`): field name to scalar. -/
def Metadata : Type := List (String × Value)

/-- First-match lookup, `some` exactly when the key is present in the dict. -/
def Metadata.lookupF (d : Metadata) (k : String) : Option Value :=
  (List.find? (fun p => p.1 == k) d).map (fun p => p.2)

/-- Python `d.get(k, default)`: the stored value when `k` is present, else `default`. -/
def Metadata.get (d : Metadata) (k : String) (default : Value) : Value :=
  (d.lookupF k).getD default

/-- A value stored in the fixed-shape record built by the extractor: either a
scalar, or (for the P/E entry) a nested dict of scalars. -/
inductive FieldValue where
  | scalar : Value → FieldValue
  | nested : List (String × Value) → FieldValue
deriving DecidableEq, Repr

/-- `str` of a `FieldValue`: Python renders a nested dict with braces, quoted
keys and comma-separated entries. -/
def FieldValue.render : FieldValue → String
  | .scalar v => v.render
  | .nested entries =>
      "\x7b" ++ String.intercalate ", "
        (entries.map (fun p => "\x27" ++ p.1 ++ "\x27: " ++ p.2.pyRepr)) ++ "\x7d"

/-- The fixed-shape record returned by the extractor: a Python dict, modelled
as an association list of label/field-value pairs. -/
def SpecificData : Type := List (String × FieldValue)

/-- Python `specific_data[k]` indexing: `some` value, or `none` for a `KeyError`. -/
def SpecificData.idx (sd : SpecificData) (k : String) : Option FieldValue :=
  (List.find? (fun p => p.1 == k) sd).map (fun p => p.2)

/-- Python sub-indexing `specific_data[k1][k2]`: requires the outer value to be
a nested dict (otherwise a `TypeError`, modelled as `none`) holding `k2`. -/
def FieldValue.subIdx (fv : FieldValue) (k : String) : Option Value :=
  match fv with
  | .scalar _ => none
  | .nested entries => (List.find? (fun p => p.1 == k) entries).map (fun p => p.2)

/-- `extract_specific_fundamental_data(details)` from `streamlit_tab.py`
(lines 47-58): projects the five tracked entries out of the metadata mapping,
substituting the literal sentinel `"N/A"` for any absent provider field. -/
def extract_specific_fundamental_data (details : Metadata) : SpecificData :=
  [ ("Current Price (Harga Saham Saat Ini)",
      .scalar (details.get "currentPrice" (.vStr "N/A"))),
    ("Market Cap (Kapitalisasi Pasar)",
      .scalar (details.get "marketCap" (.vStr "N/A"))),
    ("Price to Earnings Ratio (P/E Ratio)",
      .nested
        [ ("Trailing P/E", details.get "trailingPE" (.vStr "N/A")),
          ("Forward P/E", details.get "forwardPE" (.vStr "N/A")) ]),
    ("Dividend Yield (Hasil Dividen)",
      .scalar (details.get "dividendYield" (.vStr "N/A"))),
    ("Return on Equity (ROE)",
      .scalar (details.get "returnOnEquity" (.vStr "N/A"))) ]

/-- `format_specific_fundamental_data(specific_data)` (lines 61-71): the
f-string template, interpolating the record entries in textual order.  Each
interpolation is a dict indexing, which raises `KeyError`/`TypeError` when the
record does not have the expected shape; those failures are the `none` case. -/
def format_specific_fundamental_data (specific_data : SpecificData) : Option String := do
  let cp ← specific_data.idx "Current Price (Harga Saham Saat Ini)"
  let mc ← specific_data.idx "Market Cap (Kapitalisasi Pasar)"
  let pe ← specific_data.idx "Price to Earnings Ratio (P/E Ratio)"
  let tpe ← pe.subIdx "Trailing P/E"
  let fpe ← pe.subIdx "Forward P/E"
  let dy ← specific_data.idx "Dividend Yield (Hasil Dividen)"
  let roe ← specific_data.idx "Return on Equity (ROE)"
  pure ("**Current Price (Harga Saham Saat Ini)**: " ++ cp.render ++ " IDR\n\n"
    ++ "**Market Cap (Kapitalisasi Pasar)**: " ++ mc.render ++ " IDR\n\n"
    ++ "**Price to Earnings Ratio (P/E Ratio)**:\n"
    ++ "  - Trailing P/E: " ++ tpe.render ++ "\n"
    ++ "  - Forward P/E: " ++ fpe.render ++ "\n\n"
    ++ "**Dividend Yield (Hasil Dividen)**: " ++ dy.render ++ "%\n\n"
    ++ "**Return on Equity (ROE)**: " ++ roe.render ++ "%")

/-- The text that `format_specific_fundamental_data` produces on the record
extracted from `details` (computed below in `format_extract_eq`). -/
def fundamental_text (details : Metadata) : String :=
  "**Current Price (Harga Saham Saat Ini)**: "
    ++ (details.get "currentPrice" (.vStr "N/A")).render ++ " IDR\n\n"
    ++ "**Market Cap (Kapitalisasi Pasar)**: "
    ++ (details.get "marketCap" (.vStr "N/A")).render ++ " IDR\n\n"
    ++ "**Price to Earnings Ratio (P/E Ratio)**:\n"
    ++ "  - Trailing P/E: " ++ (details.get "trailingPE" (.vStr "N/A")).render ++ "\n"
    ++ "  - Forward P/E: " ++ (details.get "forwardPE" (.vStr "N/A")).render ++ "\n\n"
    ++ "**Dividend Yield (Hasil Dividen)**: "
    ++ (details.get "dividendYield" (.vStr "N/A")).render ++ "%\n\n"
    ++ "**Return on Equity (ROE)**: "
    ++ (details.get "returnOnEquity" (.vStr "N/A")).render ++ "%"

theorem format_extract_eq (details : Metadata) :
    format_specific_fundamental_data (extract_specific_fundamental_data details)
      = some (fundamental_text details) := rfl

/-!
The narrative analyzer (`analyze_stock_data`, lines 22-44).  The fixed
instruction template has two placeholders; `PromptTemplate.format` performs a
single-pass substitution of the two values, which for this fixed template is
exactly the concatenation of the literal segments around the two values.  The
remote LLM endpoint (`llm.complete`) is a parameter: a function from the
submitted prompt to either a response or an uncaught provider failure.
-/

/-- The template text before the `technical_data` placeholder (lines 25-27). -/
def analysis_template_pre : String :=
  "Answer in bahasa indonesia"
    ++ "Analyze the following stock data using both technical and fundamental analysis:\n"
    ++ "Technical Data (Open and Close prices):\n"

/-- The template text between the two placeholders (lines 27-28). -/
def analysis_template_mid : String := "\n\nFundamental Data:\n"

/-- The template text after the `fundamental_data` placeholder (lines 28-34). -/
def analysis_template_suf : String :=
  "\n\nProvide insights on:\n"
    ++ "1. Overall trend\n"
    ++ "2. Key technical indicators\n"
    ++ "3. Important fundamental metrics\n"
    ++ "4. Potential strengths and weaknesses\n"
    ++ "5. Any notable patterns or anomalies"

/-- `prompt.format(technical_data=..., fundamental_data=...)` (line 39): the
template with both placeholders substituted in a single pass. -/
def analysis_prompt (technical_data fundamental_data : String) : String :=
  analysis_template_pre ++ technical_data ++ analysis_template_mid
    ++ fundamental_data ++ analysis_template_suf

/-- `analyze_stock_data(technical_data, fundamental_data)` (lines 22-44):
builds the formatted prompt, submits it to the completion endpoint once, and
returns whatever comes back. -/
def analyze_stock_data (llm_complete : String → Except String String)
    (technical_data fundamental_data : String) : Except String String :=
  let formatted_prompt := analysis_prompt technical_data fundamental_data
  llm_complete formatted_prompt

/-- The OHLCV price dataframe fetched by `yf.download` (line 103): parallel
columns indexed by date. -/
structure PriceDF where
  dates : List String
  opens : List Value
  highs : List Value
  lows : List Value
  closes : List Value
  volumes : List Value
deriving DecidableEq, Repr

/-- `stock_data[["Open", "Close"]].to_string()` (line 108): the text rendering
of the two-column Open/Close projection, a header line followed by one line
per date carrying that date's open and close.  (pandas also pads columns for
alignment; the padding is presentation-only and not modelled.) -/
def openCloseToString (df : PriceDF) : String :=
  "Open Close" ++ String.join
    ((df.dates.zip (df.opens.zip df.closes)).map
      (fun r => "\n" ++ r.1 ++ " " ++ r.2.1.render ++ " " ++ r.2.2.render))

/-- A financial-statement dataframe: rows keyed by line-item name, each row an
ordered sequence of (period, value) cells where `none` is a NaN cell. -/
def Stmt : Type := List (String × List (String × Option Int))

/-- `stmt.index`: the list of row labels. -/
def Stmt.index (s : Stmt) : List String := s.map (fun p => p.1)

/-- `stmt.loc[k]`: the row labelled `k`, `none` when the label is absent. -/
def Stmt.loc (s : Stmt) (k : String) : Option (List (String × Option Int)) :=
  (List.find? (fun p => p.1 == k) s).map (fun p => p.2)

/-- `series.dropna()` (line 173): drop the NaN cells, keeping the remaining
(period, value) pairs in order. -/
def dropna (row : List (String × Option Int)) : List (String × Int) :=
  row.filterMap (fun p => p.2.map (fun v => (p.1, v)))

/-- A plotly figure handed to `st.plotly_chart`. -/
inductive Fig where
  | candles : String → PriceDF → Fig
  | bars : String → List String → List Int → Fig

/-- One observable rendering / remote-call action of the dashboard, in
execution order.  (The spinner animation and column layout carry no data and
are omitted.) -/
inductive Effect where
  | subheader : String → Effect
  | markdownE : String → Effect
  | plotlyChart : Fig → Effect
  | dataframeStock : PriceDF → Effect
  | dataframeStmt : Stmt → Effect
  | metricE : String → String → Effect
  | llmCall : String → Effect
  | write : String → Effect

/-- Recognizes the remote completion call in a trace. -/
def Effect.isLlmCall : Effect → Bool
  | .llmCall _ => true
  | _ => false

/-- Recognizes a charting call in a trace. -/
def Effect.isPlotly : Effect → Bool
  | .plotlyChart _ => true
  | _ => false

/-- The six statement tables in fetch order (lines 113-118): income,
quarterly income, balance, quarterly balance, cashflow, quarterly cashflow. -/
def Stmts : Type := Stmt × Stmt × Stmt × Stmt × Stmt × Stmt

/-- The right column of tab 1 (lines 129-138): candlestick chart of the price
series. -/
def right_col_effects (symbol : String) (stock_data : PriceDF) : List Effect :=
  [ .subheader "Stock Data Graph",
    .plotlyChart (.candles (symbol ++ " Stock Candlestick Chart") stock_data) ]

/-- Tab 2 (lines 140-167): price table, fundamental text, and the six
statement tables each preceded by a metric header. -/
def tab2_effects (stock_data : PriceDF) (fundamental_data_str : String)
    (stmts : Stmts) : List Effect :=
  [ .subheader "Stock Data", .dataframeStock stock_data,
    .subheader "Stock Information", .markdownE fundamental_data_str,
    .subheader "Financial Statements",
    .metricE "Income Statement" "Income Statement", .dataframeStmt stmts.1,
    .metricE "Quarterly Income Statement" "Quarterly Income Statement",
    .dataframeStmt stmts.2.1,
    .metricE "Balance Sheet" "Balance Sheet", .dataframeStmt stmts.2.2.1,
    .metricE "Quarterly Balance Sheet" "Quarterly Balance Sheet",
    .dataframeStmt stmts.2.2.2.1,
    .metricE "Cash Flow Statement" "Cash Flow Statement",
    .dataframeStmt stmts.2.2.2.2.1,
    .metricE "Quarterly Cash Flow Statement" "Quarterly Cash Flow Statement",
    .dataframeStmt stmts.2.2.2.2.2 ]

/-- Tab 3 (lines 169-179): the quarterly Total Revenue bar chart, or the
fallback notice when the row is absent.  Under the membership guard the
`.loc` lookup cannot fail, so its `getD` default is never consulted. -/
def tab3_render (symbol : String) (quarterly_income_stmt : Stmt) : List Effect :=
  Effect.subheader "Total Revenue per Quarter" ::
  (if "Total Revenue" ∈ quarterly_income_stmt.index then
    let total_revenue := dropna ((quarterly_income_stmt.loc "Total Revenue").getD [])
    [Effect.plotlyChart (.bars (symbol ++ " Total Revenue per Quarter")
        (total_revenue.map (fun p => p.1)) (total_revenue.map (fun p => p.2)))]
  else
    [Effect.write "Row \x27Total Revenue\x27 not found in the quarterly income statement."])

/-- The trace of every section other than tab 3, for a successful run: the
left-column analysis (lines 123-127), the right-column chart, and tab 2. -/
def other_sections (symbol : String) (stock_data : PriceDF) (info : Metadata)
    (stmts : Stmts) (analysis : String) : List Effect :=
  [ .subheader ("Analysis for " ++ symbol),
    .llmCall (analysis_prompt (openCloseToString stock_data) (fundamental_text info)),
    .markdownE ("<div class=\"stock-analysis\">" ++ analysis ++ "</div>") ]
  ++ right_col_effects symbol stock_data
  ++ tab2_effects stock_data (fundamental_text info) stmts

/-- The `if analyze_button:` block (lines 98-179), as one sequential run.
Each external step (`yf.download`, `ticker.info`, the statement fetches, and
the completion call) either yields data or raises; a raise aborts the run at
that point with the error propagating uncaught, leaving only the effects
already emitted.  Dict indexing inside the formatter is likewise fallible
(`KeyError`).  The trace lists effects in execution order: tab-1 left column,
tab-1 right column, tab 2, tab 3. -/
def run_analyze (symbol : String)
    (download : Except String PriceDF)
    (fetchInfo : Except String Metadata)
    (fetchStmts : Except String Stmts)
    (llm_complete : String → Except String String) :
    List Effect × Option String :=
  match download with
  | .error e => ([], some e)
  | .ok stock_data =>
    match fetchInfo with
    | .error e => ([], some e)
    | .ok info =>
      let technical_data := openCloseToString stock_data
      let fundamental_data := extract_specific_fundamental_data info
      match format_specific_fundamental_data fundamental_data with
      | none => ([], some "KeyError")
      | some fundamental_data_str =>
        match fetchStmts with
        | .error e => ([], some e)
        | .ok stmts =>
          match analyze_stock_data llm_complete technical_data fundamental_data_str with
          | .error e =>
              ([Effect.subheader ("Analysis for " ++ symbol),
                Effect.llmCall (analysis_prompt technical_data fundamental_data_str)],
               some e)
          | .ok analysis =>
              ([Effect.subheader ("Analysis for " ++ symbol),
                Effect.llmCall (analysis_prompt technical_data fundamental_data_str),
                Effect.markdownE ("<div class=\"stock-analysis\">" ++ analysis ++ "</div>")]
                ++ right_col_effects symbol stock_data
                ++ tab2_effects stock_data fundamental_data_str stmts
                ++ tab3_render symbol stmts.2.1,
               none)

/-!
Observation helpers and shared lemmas.
-/

/-- Reading a scalar entry of the extracted record. -/
def SpecificData.scalarAt (sd : SpecificData) (k : String) : Option Value :=
  match sd.idx k with
  | some (.scalar v) => some v
  | _ => none

/-- Reading one leg of the nested P/E entry of the extracted record. -/
def SpecificData.peAt (sd : SpecificData) (k : String) : Option Value :=
  match sd.idx "Price to Earnings Ratio (P/E Ratio)" with
  | some fv => fv.subIdx k
  | none => none

theorem Metadata.get_present (d : Metadata) (k : String) (v default : Value)
    (h : d.lookupF k = some v) : d.get k default = v := by
  simp [Metadata.get, h]

theorem Metadata.get_absent (d : Metadata) (k : String) (default : Value)
    (h : d.lookupF k = none) : d.get k default = default := by
  simp [Metadata.get, h]

theorem extract_fields_eq (d : Metadata) :
    ((extract_specific_fundamental_data d).scalarAt "Current Price (Harga Saham Saat Ini)"
        = some (d.get "currentPrice" (.vStr "N/A")))
  ∧ ((extract_specific_fundamental_data d).scalarAt "Market Cap (Kapitalisasi Pasar)"
        = some (d.get "marketCap" (.vStr "N/A")))
  ∧ ((extract_specific_fundamental_data d).peAt "Trailing P/E"
        = some (d.get "trailingPE" (.vStr "N/A")))
  ∧ ((extract_specific_fundamental_data d).peAt "Forward P/E"
        = some (d.get "forwardPE" (.vStr "N/A")))
  ∧ ((extract_specific_fundamental_data d).scalarAt "Dividend Yield (Hasil Dividen)"
        = some (d.get "dividendYield" (.vStr "N/A")))
  ∧ ((extract_specific_fundamental_data d).scalarAt "Return on Equity (ROE)"
        = some (d.get "returnOnEquity" (.vStr "N/A"))) :=
  ⟨rfl, rfl, rfl, rfl, rfl, rfl⟩

/-- C1: for every metadata mapping, the extractor returns a record with
exactly the five top-level keys, substitutes the literal sentinel `"N/A"` for
each tracked provider field absent from the mapping, and returns the
mapping's value untouched (no validation, coercion or conversion) for each
tracked field that is present. -/
theorem extract_specific_fundamental_data_spec (d : Metadata) :
    ((extract_specific_fundamental_data d).map (fun p => p.1)
        = ["Current Price (Harga Saham Saat Ini)", "Market Cap (Kapitalisasi Pasar)",
           "Price to Earnings Ratio (P/E Ratio)", "Dividend Yield (Hasil Dividen)",
           "Return on Equity (ROE)"])
  ∧ (∀ v, d.lookupF "currentPrice" = some v →
      (extract_specific_fundamental_data d).scalarAt "Current Price (Harga Saham Saat Ini)" = some v)
  ∧ (d.lookupF "currentPrice" = none →
      (extract_specific_fundamental_data d).scalarAt "Current Price (Harga Saham Saat Ini)"
        = some (.vStr "N/A"))
  ∧ (∀ v, d.lookupF "marketCap" = some v →
      (extract_specific_fundamental_data d).scalarAt "Market Cap (Kapitalisasi Pasar)" = some v)
  ∧ (d.lookupF "marketCap" = none →
      (extract_specific_fundamental_data d).scalarAt "Market Cap (Kapitalisasi Pasar)"
        = some (.vStr "N/A"))
  ∧ (∀ v, d.lookupF "trailingPE" = some v →
      (extract_specific_fundamental_data d).peAt "Trailing P/E" = some v)
  ∧ (d.lookupF "trailingPE" = none →
      (extract_specific_fundamental_data d).peAt "Trailing P/E" = some (.vStr "N/A"))
  ∧ (∀ v, d.lookupF "forwardPE" = some v →
      (extract_specific_fundamental_data d).peAt "Forward P/E" = some v)
  ∧ (d.lookupF "forwardPE" = none →
      (extract_specific_fundamental_data d).peAt "Forward P/E" = some (.vStr "N/A"))
  ∧ (∀ v, d.lookupF "dividendYield" = some v →
      (extract_specific_fundamental_data d).scalarAt "Dividend Yield (Hasil Dividen)" = some v)
  ∧ (d.lookupF "dividendYield" = none →
      (extract_specific_fundamental_data d).scalarAt "Dividend Yield (Hasil Dividen)"
        = some (.vStr "N/A"))
  ∧ (∀ v, d.lookupF "returnOnEquity" = some v →
      (extract_specific_fundamental_data d).scalarAt "Return on Equity (ROE)" = some v)
  ∧ (d.lookupF "returnOnEquity" = none →
      (extract_specific_fundamental_data d).scalarAt "Return on Equity (ROE)"
        = some (.vStr "N/A")) := by
  obtain ⟨h1, h2, h3, h4, h5, h6⟩ := extract_fields_eq d
  refine ⟨rfl, ?_, ?_, ?_, ?_, ?_, ?_, ?_, ?_, ?_, ?_, ?_, ?_⟩
  · intro v hv; rw [h1, Metadata.get_present d _ v _ hv]
  · intro hn; rw [h1, Metadata.get_absent d _ _ hn]
  · intro v hv; rw [h2, Metadata.get_present d _ v _ hv]
  · intro hn; rw [h2, Metadata.get_absent d _ _ hn]
  · intro v hv; rw [h3, Metadata.get_present d _ v _ hv]
  · intro hn; rw [h3, Metadata.get_absent d _ _ hn]
  · intro v hv; rw [h4, Metadata.get_present d _ v _ hv]
  · intro hn; rw [h4, Metadata.get_absent d _ _ hn]
  · intro v hv; rw [h5, Metadata.get_present d _ v _ hv]
  · intro hn; rw [h5, Metadata.get_absent d _ _ hn]
  · intro v hv; rw [h6, Metadata.get_present d _ v _ hv]
  · intro hn; rw [h6, Metadata.get_absent d _ _ hn]

/-- Witness for C1 at a concrete mapping that has `currentPrice` but lacks
`marketCap`: the present field passes through, the absent one becomes
`"N/A"`. -/
theorem extract_specific_fundamental_data_spec_witness :
    (Metadata.lookupF [("currentPrice", Value.vInt 150)] "currentPrice"
        = some (Value.vInt 150))
  ∧ ((extract_specific_fundamental_data [("currentPrice", Value.vInt 150)]).scalarAt
        "Current Price (Harga Saham Saat Ini)" = some (Value.vInt 150))
  ∧ (Metadata.lookupF [("currentPrice", Value.vInt 150)] "marketCap" = none)
  ∧ ((extract_specific_fundamental_data [("currentPrice", Value.vInt 150)]).scalarAt
        "Market Cap (Kapitalisasi Pasar)" = some (Value.vStr "N/A")) :=
  ⟨rfl,
   (extract_specific_fundamental_data_spec [("currentPrice", Value.vInt 150)]).2.1
     (Value.vInt 150) rfl,
   rfl,
   (extract_specific_fundamental_data_spec [("currentPrice", Value.vInt 150)]).2.2.2.2.1 rfl⟩

/-- C2: for every complete fixed-shape record, the formatter produces a
single text block carrying all five bilingual labels with their values in the
fixed template order (current price, market cap, trailing P/E, forward P/E,
dividend yield, ROE), and appends a literal percent sign to the raw
dividend-yield and ROE values without multiplying them by 100. -/
theorem format_specific_fundamental_data_complete (cp mc tpe fpe dy roe : Value) :
    format_specific_fundamental_data
      [ ("Current Price (Harga Saham Saat Ini)", .scalar cp),
        ("Market Cap (Kapitalisasi Pasar)", .scalar mc),
        ("Price to Earnings Ratio (P/E Ratio)",
          .nested [("Trailing P/E", tpe), ("Forward P/E", fpe)]),
        ("Dividend Yield (Hasil Dividen)", .scalar dy),
        ("Return on Equity (ROE)", .scalar roe) ]
    = some ("**Current Price (Harga Saham Saat Ini)**: " ++ cp.render ++ " IDR\n\n"
        ++ "**Market Cap (Kapitalisasi Pasar)**: " ++ mc.render ++ " IDR\n\n"
        ++ "**Price to Earnings Ratio (P/E Ratio)**:\n"
        ++ "  - Trailing P/E: " ++ tpe.render ++ "\n"
        ++ "  - Forward P/E: " ++ fpe.render ++ "\n\n"
        ++ "**Dividend Yield (Hasil Dividen)**: " ++ dy.render ++ "%\n\n"
        ++ "**Return on Equity (ROE)**: " ++ roe.render ++ "%") := rfl

/-- C9: the extractor is total (every lookup carries a default, so it is a
plain function on mappings), and its output always satisfies the formatter's
key requirements, so formatting the extracted record succeeds for every
metadata mapping. -/
theorem format_extract_composition_total (details : Metadata) :
    (format_specific_fundamental_data
        (extract_specific_fundamental_data details)).isSome = true := by
  rw [format_extract_eq]; rfl

/-- C10: the `"N/A"` sentinel is substituted only when a tracked field is
absent: a tracked field present with a null value is passed through unchanged
by the extractor, so the null reaches the formatter as a real value. -/
theorem extract_null_passthrough (d : Metadata) :
    (d.lookupF "currentPrice" = some .vNull →
      (extract_specific_fundamental_data d).scalarAt
        "Current Price (Harga Saham Saat Ini)" = some .vNull)
  ∧ (d.lookupF "marketCap" = some .vNull →
      (extract_specific_fundamental_data d).scalarAt
        "Market Cap (Kapitalisasi Pasar)" = some .vNull)
  ∧ (d.lookupF "trailingPE" = some .vNull →
      (extract_specific_fundamental_data d).peAt "Trailing P/E" = some .vNull)
  ∧ (d.lookupF "forwardPE" = some .vNull →
      (extract_specific_fundamental_data d).peAt "Forward P/E" = some .vNull)
  ∧ (d.lookupF "dividendYield" = some .vNull →
      (extract_specific_fundamental_data d).scalarAt
        "Dividend Yield (Hasil Dividen)" = some .vNull)
  ∧ (d.lookupF "returnOnEquity" = some .vNull →
      (extract_specific_fundamental_data d).scalarAt
        "Return on Equity (ROE)" = some .vNull) := by
  obtain ⟨h1, h2, h3, h4, h5, h6⟩ := extract_fields_eq d
  refine ⟨?_, ?_, ?_, ?_, ?_, ?_⟩
  · intro hv; rw [h1, Metadata.get_present d _ _ _ hv]
  · intro hv; rw [h2, Metadata.get_present d _ _ _ hv]
  · intro hv; rw [h3, Metadata.get_present d _ _ _ hv]
  · intro hv; rw [h4, Metadata.get_present d _ _ _ hv]
  · intro hv; rw [h5, Metadata.get_present d _ _ _ hv]
  · intro hv; rw [h6, Metadata.get_present d _ _ _ hv]

/-- Witness for C10 at a mapping holding `dividendYield = None`: the null is
passed through, not replaced by the sentinel. -/
theorem extract_null_passthrough_witness :
    (Metadata.lookupF [("dividendYield", Value.vNull)] "dividendYield"
        = some Value.vNull)
  ∧ ((extract_specific_fundamental_data [("dividendYield", Value.vNull)]).scalarAt
        "Dividend Yield (Hasil Dividen)" = some Value.vNull) :=
  ⟨rfl, (extract_null_passthrough [("dividendYield", Value.vNull)]).2.2.2.2.1 rfl⟩

/-- C3: for every pair of input text blocks, the prompt built by
`analyze_stock_data` is the fixed instruction template with the two blocks
interpolated unchanged (no escaping, sanitization or length limit), so it
contains both blocks verbatim, and that exact prompt is what is submitted to
the completion endpoint.  In the pipeline the technical block is
`openCloseToString`, the price dataframe's two-column Open/Close text
rendering. -/
theorem analysis_prompt_verbatim (technical_data fundamental_data : String) :
    (analysis_prompt technical_data fundamental_data
        = analysis_template_pre ++ technical_data ++ analysis_template_mid
            ++ fundamental_data ++ analysis_template_suf)
  ∧ technical_data.data <:+: (analysis_prompt technical_data fundamental_data).data
  ∧ fundamental_data.data <:+: (analysis_prompt technical_data fundamental_data).data
  ∧ (∀ llm_complete : String → Except String String,
      analyze_stock_data llm_complete technical_data fundamental_data
        = llm_complete (analysis_prompt technical_data fundamental_data)) := by
  refine ⟨rfl, ?_, ?_, fun _ => rfl⟩
  · exact ⟨analysis_template_pre.data,
      (analysis_template_mid ++ fundamental_data ++ analysis_template_suf).data,
      by simp [analysis_prompt, String.data_append]⟩
  · exact ⟨(analysis_template_pre ++ technical_data ++ analysis_template_mid).data,
      analysis_template_suf.data,
      by simp [analysis_prompt, String.data_append]⟩

/-- C7: `analyze_stock_data` passes the completion endpoint's free-text
response back to the caller with no parsing, validation or transformation. -/
theorem analyze_stock_data_returns_raw (llm_complete : String → Except String String)
    (technical_data fundamental_data response : String)
    (h : llm_complete (analysis_prompt technical_data fundamental_data)
        = Except.ok response) :
    analyze_stock_data llm_complete technical_data fundamental_data
      = Except.ok response := h

/-- Witness for C7 with a concrete endpoint returning a fixed response. -/
theorem analyze_stock_data_returns_raw_witness :
    ((fun _ : String => (Except.ok "Saham naik" : Except String String))
        (analysis_prompt "T" "F") = Except.ok "Saham naik")
  ∧ (analyze_stock_data (fun _ : String => (Except.ok "Saham naik" : Except String String))
        "T" "F" = Except.ok "Saham naik") :=
  ⟨rfl, analyze_stock_data_returns_raw _ "T" "F" "Saham naik" rfl⟩

theorem Stmt.loc_mem_index (q : Stmt) (k : String)
    (row : List (String × Option Int)) (h : q.loc k = some row) : k ∈ q.index := by
  unfold Stmt.loc at h
  obtain ⟨p, hfind, hrow⟩ := Option.map_eq_some'.mp h
  have hk : p.1 = k := by
    have := List.find?_some hfind
    simpa using this
  exact List.mem_map.mpr ⟨p, List.mem_of_find?_eq_some hfind, hk⟩

theorem dropna_keys (row : List (String × Option Int)) :
    (dropna row).map (fun p => p.1)
      = (row.filter (fun p => p.2.isSome)).map (fun p => p.1) := by
  induction row with
  | nil => rfl
  | cons p t ih =>
    cases hp : p.2 with
    | none => simpa [dropna, List.filterMap_cons, List.filter_cons, hp] using ih
    | some v => simpa [dropna, List.filterMap_cons, List.filter_cons, hp] using ih

theorem dropna_mem (row : List (String × Option Int)) :
    ∀ pv ∈ dropna row, (pv.1, some pv.2) ∈ row := by
  intro pv hm
  simp only [dropna, List.mem_filterMap] at hm
  obtain ⟨a, ha, hf⟩ := hm
  cases h2 : a.2 with
  | none => rw [h2] at hf; simp at hf
  | some v =>
    rw [h2] at hf
    simp only [Option.map_some', Option.some.injEq] at hf
    subst hf
    simpa [← h2] using ha

/-- C5: when the quarterly income statement has a `Total Revenue` row, the
series charted is that row with exactly the missing (NaN) periods removed:
the charted periods are precisely the row's non-missing periods in their
original relative order, and every charted value is the row's value at that
period. -/
theorem tab3_total_revenue_series (symbol : String) (q : Stmt)
    (row : List (String × Option Int)) (h : q.loc "Total Revenue" = some row) :
    (tab3_render symbol q
        = [Effect.subheader "Total Revenue per Quarter",
           Effect.plotlyChart (Fig.bars (symbol ++ " Total Revenue per Quarter")
             ((dropna row).map (fun p => p.1)) ((dropna row).map (fun p => p.2)))])
  ∧ ((dropna row).map (fun p => p.1)
        = (row.filter (fun p => p.2.isSome)).map (fun p => p.1))
  ∧ (∀ pv ∈ dropna row, (pv.1, some pv.2) ∈ row) := by
  refine ⟨?_, dropna_keys row, dropna_mem row⟩
  have hmem : "Total Revenue" ∈ q.index := Stmt.loc_mem_index q _ row h
  unfold tab3_render
  rw [if_pos hmem, h]
  rfl

/-- Witness for C5 on a three-period row whose middle period is missing: the
chart keeps the first and third periods, in order, with their values. -/
theorem tab3_total_revenue_series_witness :
    (Stmt.loc [("Total Revenue",
        [("2024Q1", some 100), ("2024Q2", none), ("2024Q3", some 120)])] "Total Revenue"
      = some [("2024Q1", some 100), ("2024Q2", none), ("2024Q3", some 120)])
  ∧ (tab3_render "AAPL" [("Total Revenue",
        [("2024Q1", some 100), ("2024Q2", none), ("2024Q3", some 120)])]
      = [Effect.subheader "Total Revenue per Quarter",
         Effect.plotlyChart (Fig.bars ("AAPL" ++ " Total Revenue per Quarter")
           ["2024Q1", "2024Q3"] [100, 120])]) :=
  ⟨rfl, (tab3_total_revenue_series "AAPL"
      [("Total Revenue", [("2024Q1", some 100), ("2024Q2", none), ("2024Q3", some 120)])]
      [("2024Q1", some 100), ("2024Q2", none), ("2024Q3", some 120)] rfl).1⟩

theorem run_analyze_ok (symbol : String) (stock_data : PriceDF) (info : Metadata)
    (stmts : Stmts) (llm_complete : String → Except String String) (analysis : String)
    (h : llm_complete (analysis_prompt (openCloseToString stock_data) (fundamental_text info))
        = Except.ok analysis) :
    run_analyze symbol (.ok stock_data) (.ok info) (.ok stmts) llm_complete
      = (other_sections symbol stock_data info stmts analysis
          ++ tab3_render symbol stmts.2.1, none) := by
  simp [run_analyze, format_extract_eq, analyze_stock_data, h, other_sections]

theorem run_analyze_llm_error (symbol : String) (stock_data : PriceDF) (info : Metadata)
    (stmts : Stmts) (llm_complete : String → Except String String) (e : String)
    (h : llm_complete (analysis_prompt (openCloseToString stock_data) (fundamental_text info))
        = Except.error e) :
    run_analyze symbol (.ok stock_data) (.ok info) (.ok stmts) llm_complete
      = ([Effect.subheader ("Analysis for " ++ symbol),
          Effect.llmCall (analysis_prompt (openCloseToString stock_data)
            (fundamental_text info))], some e) := by
  simp [run_analyze, format_extract_eq, analyze_stock_data, h]

theorem run_analyze_stmts_error (symbol : String) (stock_data : PriceDF) (info : Metadata)
    (e : String) (llm_complete : String → Except String String) :
    run_analyze symbol (.ok stock_data) (.ok info) (.error e) llm_complete
      = ([], some e) := by
  simp [run_analyze, format_extract_eq]

theorem tab3_render_no_llm (symbol : String) (q : Stmt) :
    (tab3_render symbol q).countP Effect.isLlmCall = 0 := by
  unfold tab3_render
  split <;> simp [Effect.isLlmCall]

/-- C4: when the quarterly income statement has no `Total Revenue` row, tab 3
renders the literal fallback notice and performs no charting call, while
every other section of a successful run still renders as usual. -/
theorem tab3_missing_total_revenue (symbol : String) (q : Stmt)
    (h : "Total Revenue" ∉ q.index) :
    (tab3_render symbol q
        = [Effect.subheader "Total Revenue per Quarter",
           Effect.write "Row \x27Total Revenue\x27 not found in the quarterly income statement."])
  ∧ (∀ e ∈ tab3_render symbol q, Effect.isPlotly e = false)
  ∧ (∀ (stock_data : PriceDF) (info : Metadata) (i b qb c qc : Stmt)
        (llm_complete : String → Except String String) (analysis : String),
      llm_complete (analysis_prompt (openCloseToString stock_data) (fundamental_text info))
          = Except.ok analysis →
      run_analyze symbol (.ok stock_data) (.ok info) (.ok (i, q, b, qb, c, qc)) llm_complete
        = (other_sections symbol stock_data info (i, q, b, qb, c, qc) analysis
            ++ [Effect.subheader "Total Revenue per Quarter",
                Effect.write "Row \x27Total Revenue\x27 not found in the quarterly income statement."],
           none)) := by
  have h1 : tab3_render symbol q
      = [Effect.subheader "Total Revenue per Quarter",
         Effect.write "Row \x27Total Revenue\x27 not found in the quarterly income statement."] := by
    unfold tab3_render
    rw [if_neg h]
  refine ⟨h1, ?_, ?_⟩
  · intro e he
    rw [h1] at he
    simp only [List.mem_cons, List.not_mem_nil, or_false] at he
    rcases he with rfl | rfl <;> rfl
  · intro stock_data info i b qb c qc llm_complete analysis hllm
    rw [run_analyze_ok symbol stock_data info (i, q, b, qb, c, qc) llm_complete analysis hllm]
    rw [show ((i, q, b, qb, c, qc) : Stmts).2.1 = q from rfl, h1]

/-- Witness for C4 on a statement whose only row is labelled `Revenue`. -/
theorem tab3_missing_total_revenue_witness :
    ("Total Revenue" ∉ Stmt.index [("Revenue", ([] : List (String × Option Int)))])
  ∧ (tab3_render "AAPL" [("Revenue", ([] : List (String × Option Int)))]
      = [Effect.subheader "Total Revenue per Quarter",
         Effect.write "Row \x27Total Revenue\x27 not found in the quarterly income statement."]) :=
  ⟨by decide,
   (tab3_missing_total_revenue "AAPL" [("Revenue", ([] : List (String × Option Int)))]
      (by decide)).1⟩

/-- C6: the narrative call is invoked exactly once per triggered run, and the
submitted prompt is a deterministic function of the two input text blocks:
the run trace contains exactly one completion call whether the call succeeds
or fails, and equal text blocks always produce an identical prompt. -/
theorem narrative_call_once_deterministic (symbol : String) (stock_data : PriceDF)
    (info : Metadata) (stmts : Stmts) (llm_complete : String → Except String String) :
    ((run_analyze symbol (.ok stock_data) (.ok info) (.ok stmts) llm_complete).1.countP
        Effect.isLlmCall = 1)
  ∧ (∀ t₁ f₁ t₂ f₂ : String, t₁ = t₂ → f₁ = f₂ →
      analysis_prompt t₁ f₁ = analysis_prompt t₂ f₂) := by
  constructor
  · cases hc : llm_complete (analysis_prompt (openCloseToString stock_data)
        (fundamental_text info)) with
    | error e =>
        rw [run_analyze_llm_error symbol stock_data info stmts llm_complete e hc]
        simp [Effect.isLlmCall]
    | ok analysis =>
        rw [run_analyze_ok symbol stock_data info stmts llm_complete analysis hc]
        simp [other_sections, right_col_effects, tab2_effects, List.countP_append,
          tab3_render_no_llm, Effect.isLlmCall]
  · intro t₁ f₁ t₂ f₂ ht hf
    rw [ht, hf]

/-- Witness for C6 on a concrete run with a succeeding endpoint. -/
theorem narrative_call_once_deterministic_witness :
    ((run_analyze "AAPL" (.ok ⟨[], [], [], [], [], []⟩) (.ok ([] : Metadata))
        (.ok (([], [], [], [], [], []) : Stmts))
        (fun _ : String => (Except.ok "analysis text" : Except String String))).1.countP
        Effect.isLlmCall = 1)
  ∧ analysis_prompt "T" "F" = analysis_prompt "T" "F" :=
  ⟨(narrative_call_once_deterministic "AAPL" ⟨[], [], [], [], [], []⟩ ([] : Metadata)
      (([], [], [], [], [], []) : Stmts)
      (fun _ : String => (Except.ok "analysis text" : Except String String))).1,
   (narrative_call_once_deterministic "AAPL" ⟨[], [], [], [], [], []⟩ ([] : Metadata)
      (([], [], [], [], [], []) : Stmts)
      (fun _ : String => (Except.ok "analysis text" : Except String String))).2
      "T" "F" "T" "F" rfl rfl⟩

/-- C8: every failure other than the two sentinel substitutions propagates
uncaught: a failing price download, metadata fetch or statement fetch aborts
the run before any section renders, and a failing completion call aborts the
run after only the pre-call subheader and the single call itself, so no
dependent section produces partial output and there is no retry or recovery
path. -/
theorem run_analyze_failure_propagation :
    (∀ (symbol e : String) (fetchInfo : Except String Metadata)
        (fetchStmts : Except String Stmts)
        (llm_complete : String → Except String String),
      run_analyze symbol (.error e) fetchInfo fetchStmts llm_complete = ([], some e))
  ∧ (∀ (symbol e : String) (stock_data : PriceDF)
        (fetchStmts : Except String Stmts)
        (llm_complete : String → Except String String),
      run_analyze symbol (.ok stock_data) (.error e) fetchStmts llm_complete
        = ([], some e))
  ∧ (∀ (symbol e : String) (stock_data : PriceDF) (info : Metadata)
        (llm_complete : String → Except String String),
      run_analyze symbol (.ok stock_data) (.ok info) (.error e) llm_complete
        = ([], some e))
  ∧ (∀ (symbol e : String) (stock_data : PriceDF) (info : Metadata) (stmts : Stmts)
        (llm_complete : String → Except String String),
      llm_complete (analysis_prompt (openCloseToString stock_data)
          (fundamental_text info)) = Except.error e →
      run_analyze symbol (.ok stock_data) (.ok info) (.ok stmts) llm_complete
        = ([Effect.subheader ("Analysis for " ++ symbol),
            Effect.llmCall (analysis_prompt (openCloseToString stock_data)
              (fundamental_text info))], some e)) :=
  ⟨fun _ _ _ _ _ => rfl,
   fun _ _ _ _ _ => rfl,
   fun symbol e stock_data llm_complete =>
     run_analyze_stmts_error symbol stock_data llm_complete e,
   fun symbol e stock_data info stmts llm_complete h =>
     run_analyze_llm_error symbol stock_data info stmts llm_complete e h⟩

/-- Witness for C8 on a concrete run whose completion endpoint raises: only
the pre-call subheader and the single call appear, with the error carried to
the top. -/
theorem run_analyze_failure_propagation_witness :
    ((fun _ : String => (Except.error "network error" : Except String String))
        (analysis_prompt (openCloseToString ⟨[], [], [], [], [], []⟩)
          (fundamental_text ([] : Metadata))) = Except.error "network error")
  ∧ (run_analyze "AAPL" (.ok ⟨[], [], [], [], [], []⟩) (.ok ([] : Metadata))
        (.ok (([], [], [], [], [], []) : Stmts))
        (fun _ : String => (Except.error "network error" : Except String String))
      = ([Effect.subheader ("Analysis for " ++ "AAPL"),
          Effect.llmCall (analysis_prompt (openCloseToString ⟨[], [], [], [], [], []⟩)
            (fundamental_text ([] : Metadata)))], some "network error")) :=
  ⟨rfl,
   run_analyze_failure_propagation.2.2.2 "AAPL" "network error"
     ⟨[], [], [], [], [], []⟩ ([] : Metadata) (([], [], [], [], [], []) : Stmts)
     (fun _ : String => (Except.error "network error" : Except String String)) rfl⟩
